import Mathlib

/-!
Shallow embedding of `src/jni/minicap-shared/aosp/src/minicap_22.cpp`.

Pure data is translated directly; the stateful `MinicapImpl` class becomes a
state record with explicit state-passing operations.  Calls into the Android
platform (SurfaceComposerClient, CpuConsumer, bytesPerPixel, libm sqrt) are
modelled by explicit inputs: the status codes they return and the data they
deliver are parameters of the corresponding operation, and the side effects
the code performs on platform objects are emitted as an explicit action list.
Machine integers are modelled as Nat/Int; the one computation where uint32_t
wrap-around matters (the frame size product) reduces modulo 2^32.
-/

namespace Minicap

/-! ### Normalized pixel formats (Minicap::Format) -/

/-- Normalized pixel format enum of the Minicap interface. -/
inductive Format where
  | FORMAT_NONE
  | FORMAT_CUSTOM
  | FORMAT_TRANSLUCENT
  | FORMAT_TRANSPARENT
  | FORMAT_OPAQUE
  | FORMAT_RGBA_8888
  | FORMAT_RGBX_8888
  | FORMAT_RGB_888
  | FORMAT_RGB_565
  | FORMAT_BGRA_8888
  | FORMAT_RGBA_5551
  | FORMAT_RGBA_4444
  | FORMAT_UNKNOWN
deriving DecidableEq, Repr

/-! ### Native pixel format codes

Numeric values of the `android::PIXEL_FORMAT_*` constants, from the Android
platform header `ui/PixelFormat.h` (a platform dependency of the repository,
not part of it). -/

def PIXEL_FORMAT_NONE : Int := 0

def PIXEL_FORMAT_CUSTOM : Int := -4

def PIXEL_FORMAT_TRANSLUCENT : Int := -3

def PIXEL_FORMAT_TRANSPARENT : Int := -2

def PIXEL_FORMAT_OPAQUE : Int := -1

def PIXEL_FORMAT_RGBA_8888 : Int := 1

def PIXEL_FORMAT_RGBX_8888 : Int := 2

def PIXEL_FORMAT_RGB_888 : Int := 3

def PIXEL_FORMAT_RGB_565 : Int := 4

def PIXEL_FORMAT_BGRA_8888 : Int := 5

def PIXEL_FORMAT_RGBA_5551 : Int := 6

def PIXEL_FORMAT_RGBA_4444 : Int := 7

/-- The list of native codes explicitly handled by the switch in
`MinicapImpl::convertFormat`. -/
def handledFormatCodes : List Int :=
  [PIXEL_FORMAT_NONE, PIXEL_FORMAT_CUSTOM, PIXEL_FORMAT_TRANSLUCENT,
   PIXEL_FORMAT_TRANSPARENT, PIXEL_FORMAT_OPAQUE, PIXEL_FORMAT_RGBA_8888,
   PIXEL_FORMAT_RGBX_8888, PIXEL_FORMAT_RGB_888, PIXEL_FORMAT_RGB_565,
   PIXEL_FORMAT_BGRA_8888, PIXEL_FORMAT_RGBA_5551, PIXEL_FORMAT_RGBA_4444]

/-! ### FrameWaiter -/

/-- State of the `FrameWaiter` listener: the `mPendingFrames` counter
(a C++ `int`, modelled as an unbounded Int so that non-negativity is a
provable property rather than built in). The mutex and condition variable
serialize the two operations; the model makes each operation atomic. -/
structure FrameWaiter where
  mPendingFrames : Int
deriving DecidableEq, Repr

/-- FrameWaiter::onFrameAvailable: increments the counter and signals the
condition variable (the wake-up itself is implicit in the model). -/
def FrameWaiter.onFrameAvailable (w : FrameWaiter) : FrameWaiter :=
  { mPendingFrames := w.mPendingFrames + 1 }

/-- FrameWaiter::waitForFrame: the loop body waits while `mPendingFrames == 0`;
once the loop exits the counter is decremented. `none` models a call that is
still blocked (the loop condition holds and no signal has arrived). -/
def FrameWaiter.waitForFrame (w : FrameWaiter) : Option FrameWaiter :=
  if w.mPendingFrames = 0 then none
  else some { mPendingFrames := w.mPendingFrames - 1 }

/-- One call into the FrameWaiter, from either thread. -/
inductive WaiterOp where
  | signal
  | wait
deriving DecidableEq, Repr

/-- Execute one WaiterOp on the waiter state. -/
def FrameWaiter.step (w : FrameWaiter) : WaiterOp → Option FrameWaiter
  | WaiterOp.signal => some w.onFrameAvailable
  | WaiterOp.wait => w.waitForFrame

/-- Execute a sequence of calls; `none` as soon as a wait blocks. -/
def FrameWaiter.run (w : FrameWaiter) : List WaiterOp → Option FrameWaiter
  | [] => some w
  | op :: ops => (w.step op).bind fun w1 => w1.run ops

/-- Number of signal calls in a call sequence. -/
def countSignals : List WaiterOp → Nat
  | [] => 0
  | WaiterOp.signal :: ops => countSignals ops + 1
  | WaiterOp.wait :: ops => countSignals ops

/-- Number of wait calls in a call sequence. -/
def countWaits : List WaiterOp → Nat
  | [] => 0
  | WaiterOp.signal :: ops => countWaits ops
  | WaiterOp.wait :: ops => countWaits ops + 1

/-! ### Boundary data structures -/

/-- Minicap::DisplayInfo (from the interface header; fields exactly as read
and written by minicap_22.cpp). The C floating point fields are modelled
over the rationals. -/
structure DisplayInfo where
  width : Nat
  height : Nat
  orientation : Nat
  fps : Rat
  density : Rat
  xdpi : Rat
  ydpi : Rat
  secure : Bool
  size : Rat
deriving DecidableEq, Repr

/-- The android::DisplayInfo record filled by
SurfaceComposerClient::getDisplayInfo (platform side). -/
structure AndroidDisplayInfo where
  w : Nat
  h : Nat
  orientation : Nat
  fps : Rat
  density : Rat
  xdpi : Rat
  ydpi : Rat
  secure : Bool
deriving DecidableEq, Repr

/-- The fields of android::CpuConsumer::LockedBuffer that
MinicapImpl::consumePendingFrame reads. `data` is the opaque pixel pointer. -/
structure LockedBuffer where
  data : Nat
  format : Int
  width : Nat
  height : Nat
  stride : Nat
deriving DecidableEq, Repr

/-- Minicap::Frame as filled by consumePendingFrame. -/
structure Frame where
  data : Nat
  format : Format
  width : Nat
  height : Nat
  stride : Nat
  bpp : Nat
  size : Nat
deriving DecidableEq, Repr

/-! ### MinicapImpl state -/

/-- Configuration the code applies to the IGraphicBufferConsumer after
BufferQueue::createBufferQueue. -/
structure BufferConsumerState where
  asyncDisabled : Bool
  defaultWidth : Nat
  defaultHeight : Nat
  defaultFormat : Int
deriving DecidableEq, Repr

/-- Configuration of the android::CpuConsumer wrapper (constructed with
maxLockedBuffers = 1 in createVirtualDisplay). -/
structure CpuConsumerState where
  maxLockedBuffers : Nat
deriving DecidableEq, Repr

/-- The virtual display handle together with the projection state applied to
it in the global transaction of createVirtualDisplay. -/
structure VirtualDisplayState where
  secure : Bool
  surfaceBound : Bool
  projOrientation : Nat
  projLayerStackRect : Nat × Nat
  projVisibleRect : Nat × Nat
  layerStack : Nat
deriving DecidableEq, Repr

/-- The member state of class MinicapImpl. Smart-pointer members are
`Option`s (`none` = NULL). -/
structure MinicapState where
  mDisplayId : Int
  mRealWidth : Nat
  mRealHeight : Nat
  mDesiredWidth : Nat
  mDesiredHeight : Nat
  mDesiredOrientation : Nat
  mBufferProducer : Option Unit
  mBufferConsumer : Option BufferConsumerState
  mConsumer : Option CpuConsumerState
  mVirtualDisplay : Option VirtualDisplayState
  mWaiter : Option FrameWaiter
  mHaveBuffer : Bool
  mHavePendingFrame : Bool
  mHaveRunningDisplay : Bool
  mBuffer : LockedBuffer
deriving DecidableEq, Repr

/-- minicap_create: the MinicapImpl constructor (all scalars zeroed, all
pointers NULL, all flags false). -/
def minicap_create (displayId : Int) : MinicapState :=
  { mDisplayId := displayId
    mRealWidth := 0
    mRealHeight := 0
    mDesiredWidth := 0
    mDesiredHeight := 0
    mDesiredOrientation := 0
    mBufferProducer := none
    mBufferConsumer := none
    mConsumer := none
    mVirtualDisplay := none
    mWaiter := none
    mHaveBuffer := false
    mHavePendingFrame := false
    mHaveRunningDisplay := false
    mBuffer := { data := 0, format := 0, width := 0, height := 0, stride := 0 } }

/-- Side effects performed on platform objects, recorded explicitly. -/
inductive ExtAction where
  | destroyDisplay (handle : Option VirtualDisplayState)
  | unlockBuffer (buffer : LockedBuffer)
deriving DecidableEq, Repr

namespace MinicapImpl

/-- MinicapImpl::convertFormat: the switch over native pixel format codes
with default arm FORMAT_UNKNOWN. -/
def convertFormat (format : Int) : Format :=
  if format = PIXEL_FORMAT_NONE then Format.FORMAT_NONE
  else if format = PIXEL_FORMAT_CUSTOM then Format.FORMAT_CUSTOM
  else if format = PIXEL_FORMAT_TRANSLUCENT then Format.FORMAT_TRANSLUCENT
  else if format = PIXEL_FORMAT_TRANSPARENT then Format.FORMAT_TRANSPARENT
  else if format = PIXEL_FORMAT_OPAQUE then Format.FORMAT_OPAQUE
  else if format = PIXEL_FORMAT_RGBA_8888 then Format.FORMAT_RGBA_8888
  else if format = PIXEL_FORMAT_RGBX_8888 then Format.FORMAT_RGBX_8888
  else if format = PIXEL_FORMAT_RGB_888 then Format.FORMAT_RGB_888
  else if format = PIXEL_FORMAT_RGB_565 then Format.FORMAT_RGB_565
  else if format = PIXEL_FORMAT_BGRA_8888 then Format.FORMAT_BGRA_8888
  else if format = PIXEL_FORMAT_RGBA_5551 then Format.FORMAT_RGBA_5551
  else if format = PIXEL_FORMAT_RGBA_4444 then Format.FORMAT_RGBA_4444
  else Format.FORMAT_UNKNOWN

/-- MinicapImpl::setDesiredInfo: stores width, height and orientation of the
argument; returns true. -/
def setDesiredInfo (info : DisplayInfo) (s : MinicapState) : Bool × MinicapState :=
  (true,
   { s with
      mDesiredWidth := info.width
      mDesiredHeight := info.height
      mDesiredOrientation := info.orientation })

/-- MinicapImpl::setRealInfo: stores width and height of the argument;
returns true. -/
def setRealInfo (info : DisplayInfo) (s : MinicapState) : Bool × MinicapState :=
  (true, { s with mRealWidth := info.width, mRealHeight := info.height })

/-- MinicapImpl::hasPendingFrame. -/
def hasPendingFrame (s : MinicapState) : Bool :=
  s.mHavePendingFrame

/-- MinicapImpl::createVirtualDisplay.  `initCheckErr` is the status returned
by SurfaceComposerClient::initCheck (0 = android::NO_ERROR).  On the success
path the C++ source, a bool function, ends with `return 0;`, i.e. it returns
false. -/
def createVirtualDisplay (initCheckErr : Int) (s : MinicapState) : Bool × MinicapState :=
  let layerStackRect := (s.mRealWidth, s.mRealHeight)
  let visibleRect := (s.mDesiredWidth, s.mDesiredHeight)
  if initCheckErr ≠ 0 then
    (false, s)
  else
    let display : VirtualDisplayState :=
      { secure := true
        surfaceBound := true
        projOrientation := s.mDesiredOrientation
        projLayerStackRect := layerStackRect
        projVisibleRect := visibleRect
        layerStack := 0 }
    let consumerCfg : BufferConsumerState :=
      { asyncDisabled := true
        defaultWidth := s.mDesiredWidth
        defaultHeight := s.mDesiredHeight
        defaultFormat := PIXEL_FORMAT_RGBA_8888 }
    (false,
     { s with
        mVirtualDisplay := some display
        mBufferProducer := some ()
        mBufferConsumer := some consumerCfg
        mConsumer := some { maxLockedBuffers := 1 }
        mWaiter := some { mPendingFrames := 0 }
        mHaveRunningDisplay := true })

/-- MinicapImpl::destroyVirtualDisplay: destroys the display handle, unlocks
a held buffer if any, NULLs every handle and clears the pending/running
flags.  The platform calls performed are returned as an action list. -/
def destroyVirtualDisplay (s : MinicapState) : MinicapState × List ExtAction :=
  let destroyActs := [ExtAction.destroyDisplay s.mVirtualDisplay]
  let unlockState :=
    if s.mHaveBuffer then
      ({ s with mHaveBuffer := false }, [ExtAction.unlockBuffer s.mBuffer])
    else
      (s, ([] : List ExtAction))
  ({ unlockState.1 with
      mBufferProducer := none
      mBufferConsumer := none
      mConsumer := none
      mWaiter := none
      mVirtualDisplay := none
      mHavePendingFrame := false
      mHaveRunningDisplay := false },
   destroyActs ++ unlockState.2)

/-- MinicapImpl::release: just destroyVirtualDisplay. -/
def release (s : MinicapState) : MinicapState × List ExtAction :=
  destroyVirtualDisplay s

/-- MinicapImpl::applyConfigChanges: destroy the running display first if
there is one, then create a new one and return the create outcome. -/
def applyConfigChanges (initCheckErr : Int) (s : MinicapState) :
    Bool × MinicapState × List ExtAction :=
  let destroyed :=
    if s.mHaveRunningDisplay then destroyVirtualDisplay s else (s, ([] : List ExtAction))
  let created := createVirtualDisplay initCheckErr destroyed.1
  (created.1, created.2, destroyed.2)

/-- MinicapImpl::waitForFrame: unlock a buffer held from a prior read, then
block on the FrameWaiter; on return mark a pending frame and return true.
`none` models a call that crashes on a NULL waiter or is still blocked. -/
def waitForFrame (s : MinicapState) : Option (Bool × MinicapState × List ExtAction) :=
  let unlockState :=
    if s.mHaveBuffer then
      ({ s with mHaveBuffer := false }, [ExtAction.unlockBuffer s.mBuffer])
    else
      (s, ([] : List ExtAction))
  match unlockState.1.mWaiter with
  | none => none
  | some w =>
    match w.waitForFrame with
    | none => none
    | some w1 =>
      some (true,
            { unlockState.1 with mWaiter := some w1, mHavePendingFrame := true },
            unlockState.2)

/-- MinicapImpl::consumePendingFrame.  `bytesPerPixel` abstracts the platform
function android::bytesPerPixel; `err` is the status returned by
CpuConsumer::lockNextBuffer (0 = android::NO_ERROR) and `buf` the buffer it
delivers into mBuffer on success.  Frame fields are uint32_t, so the size
product reduces modulo 2^32. -/
def consumePendingFrame (bytesPerPixel : Int → Nat) (err : Int) (buf : LockedBuffer)
    (s : MinicapState) (frame : Frame) : Bool × MinicapState × Frame :=
  if err ≠ 0 then
    (false, s, frame)
  else
    let bpp := bytesPerPixel buf.format
    (true,
     { s with mBuffer := buf, mHaveBuffer := true, mHavePendingFrame := false },
     { data := buf.data
       format := convertFormat buf.format
       width := buf.width
       height := buf.height
       stride := buf.stride
       bpp := bpp
       size := buf.stride * buf.height * bpp % 2 ^ 32 })

end MinicapImpl

/-- minicap_try_get_display_info.  `sqrtFn` abstracts the libm sqrt used for
the diagonal; `err` is the status of SurfaceComposerClient::getDisplayInfo on
the handle looked up for the display id (an invalid handle surfaces as a
non-success status) and `dinfo` the record it fills on success.  The second
component is the DisplayInfo written through the out-pointer (`none` =
nothing written). -/
def minicap_try_get_display_info (sqrtFn : Rat → Rat) (err : Int)
    (dinfo : AndroidDisplayInfo) : Bool × Option DisplayInfo :=
  if err ≠ 0 then
    (false, none)
  else
    (true,
     some
       { width := dinfo.w
         height := dinfo.h
         orientation := dinfo.orientation
         fps := dinfo.fps
         density := dinfo.density
         xdpi := dinfo.xdpi
         ydpi := dinfo.ydpi
         secure := dinfo.secure
         size := sqrtFn (((dinfo.w : Rat) / dinfo.xdpi) ^ 2 + ((dinfo.h : Rat) / dinfo.ydpi) ^ 2) })

/-! ### FrameWaiter lemmas -/

theorem FrameWaiter.run_append (w : FrameWaiter) (l1 l2 : List WaiterOp) :
    FrameWaiter.run w (l1 ++ l2) =
      (FrameWaiter.run w l1).bind fun w1 => FrameWaiter.run w1 l2 := by
  induction l1 generalizing w with
  | nil => simp [FrameWaiter.run]
  | cons op ops ih =>
    simp only [List.cons_append, FrameWaiter.run]
    cases w.step op with
    | none => simp
    | some w1 => simpa using ih w1

theorem FrameWaiter.run_replicate_signal (n : Nat) (w : FrameWaiter) :
    FrameWaiter.run w (List.replicate n WaiterOp.signal) =
      some { mPendingFrames := w.mPendingFrames + n } := by
  induction n generalizing w with
  | zero =>
    obtain ⟨p⟩ := w
    simp [FrameWaiter.run]
  | succ n ih =>
    obtain ⟨p⟩ := w
    simp only [List.replicate_succ, FrameWaiter.run, FrameWaiter.step,
      FrameWaiter.onFrameAvailable, Option.some_bind]
    rw [ih]
    simp [FrameWaiter.mk.injEq]
    ring

theorem FrameWaiter.run_replicate_wait (n : Nat) (w : FrameWaiter)
    (h : (n : Int) ≤ w.mPendingFrames) :
    FrameWaiter.run w (List.replicate n WaiterOp.wait) =
      some { mPendingFrames := w.mPendingFrames - n } := by
  induction n generalizing w with
  | zero =>
    obtain ⟨p⟩ := w
    simp [FrameWaiter.run]
  | succ n ih =>
    obtain ⟨p⟩ := w
    simp only [FrameWaiter.mk.injEq] at h ⊢
    have hp : ¬ p = 0 := by
      push_cast at h
      omega
    simp only [List.replicate_succ, FrameWaiter.run, FrameWaiter.step,
      FrameWaiter.waitForFrame, hp, if_false, Option.some_bind]
    rw [ih ⟨p - 1⟩ (by push_cast at h ⊢; omega)]
    simp [FrameWaiter.mk.injEq]
    ring

theorem FrameWaiter.run_nonneg (ops : List WaiterOp) (w w1 : FrameWaiter)
    (h0 : 0 ≤ w.mPendingFrames) (h : FrameWaiter.run w ops = some w1) :
    0 ≤ w1.mPendingFrames := by
  induction ops generalizing w with
  | nil =>
    simp only [FrameWaiter.run, Option.some.injEq] at h
    exact h ▸ h0
  | cons op ops ih =>
    cases op with
    | signal =>
      simp only [FrameWaiter.run, FrameWaiter.step, FrameWaiter.onFrameAvailable,
        Option.some_bind] at h
      exact ih _ (by simp; omega) h
    | wait =>
      simp only [FrameWaiter.run, FrameWaiter.step, FrameWaiter.waitForFrame] at h
      by_cases hp : w.mPendingFrames = 0
      · simp [hp] at h
      · simp only [hp, if_false, Option.some_bind] at h
        exact ih _ (by simp; omega) h

theorem FrameWaiter.run_of_take_bound (ops : List WaiterOp) (w : FrameWaiter)
    (h : ∀ k : Nat,
      (countWaits (ops.take k) : Int) ≤ countSignals (ops.take k) + w.mPendingFrames) :
    FrameWaiter.run w ops =
      some { mPendingFrames := w.mPendingFrames + countSignals ops - countWaits ops } := by
  induction ops generalizing w with
  | nil =>
    obtain ⟨p⟩ := w
    simp [FrameWaiter.run, countSignals, countWaits]
  | cons op ops ih =>
    cases op with
    | signal =>
      simp only [FrameWaiter.run, FrameWaiter.step, FrameWaiter.onFrameAvailable,
        Option.some_bind]
      rw [ih]
      · simp only [countSignals, countWaits, Option.some.injEq, FrameWaiter.mk.injEq]
        push_cast
        omega
      · intro k
        have hk := h (k + 1)
        simp only [List.take_succ_cons, countSignals, countWaits] at hk ⊢
        push_cast at hk ⊢
        omega
    | wait =>
      have h1 := h 1
      simp only [List.take_succ_cons, List.take_zero, countSignals, countWaits] at h1
      have hp : ¬ w.mPendingFrames = 0 := by
        push_cast at h1
        omega
      simp only [FrameWaiter.run, FrameWaiter.step, FrameWaiter.waitForFrame, hp,
        if_false, Option.some_bind]
      rw [ih]
      · simp only [countSignals, countWaits, Option.some.injEq, FrameWaiter.mk.injEq]
        push_cast
        omega
      · intro k
        have hk := h (k + 1)
        simp only [List.take_succ_cons, countSignals, countWaits] at hk ⊢
        push_cast at hk ⊢
        omega

/-- C2: the FrameWaiter pending-frame counter is never negative; each
waitForFrame call consumes exactly one onFrameAvailable signal (it returns
only when the counter was positive and decrements it by exactly one); for
every call sequence in which the waits never outnumber the prior signals at
the time of the call, every wait returns and the counter ends at the number
of signals minus the number of waits — in particular, N signals followed by
N waits end with the counter at 0 and every wait returning. -/
theorem frameWaiter_counter_spec :
    (∀ (ops : List WaiterOp) (w w1 : FrameWaiter),
        0 ≤ w.mPendingFrames → FrameWaiter.run w ops = some w1 →
        0 ≤ w1.mPendingFrames) ∧
    (∀ w w1 : FrameWaiter, 0 ≤ w.mPendingFrames → w.waitForFrame = some w1 →
        0 < w.mPendingFrames ∧ w1.mPendingFrames = w.mPendingFrames - 1) ∧
    (∀ ops : List WaiterOp,
        (∀ k : Nat, countWaits (ops.take k) ≤ countSignals (ops.take k)) →
        FrameWaiter.run { mPendingFrames := 0 } ops =
          some { mPendingFrames := (countSignals ops : Int) - countWaits ops }) ∧
    (∀ n : Nat,
        FrameWaiter.run { mPendingFrames := 0 }
          (List.replicate n WaiterOp.signal ++ List.replicate n WaiterOp.wait) =
          some { mPendingFrames := 0 }) := by
  refine ⟨FrameWaiter.run_nonneg, ?_, ?_, ?_⟩
  · intro w w1 h0 h
    by_cases hp : w.mPendingFrames = 0
    · simp [FrameWaiter.waitForFrame, hp] at h
    · refine ⟨by omega, ?_⟩
      simp only [FrameWaiter.waitForFrame, hp, if_false, Option.some.injEq] at h
      simp [← h]
  · intro ops h
    rw [FrameWaiter.run_of_take_bound]
    · simp only [Option.some.injEq, FrameWaiter.mk.injEq]
      omega
    · intro k
      have := h k
      push_cast
      omega
  · intro n
    rw [FrameWaiter.run_append, FrameWaiter.run_replicate_signal, Option.some_bind,
      FrameWaiter.run_replicate_wait]
    · simp
    · simp

/-- Witness for frameWaiter_counter_spec at concrete inputs: the invariant
applied to the run of one signal then one wait from counter 0, and the
burst scenario of three signals followed by three waits. -/
theorem frameWaiter_counter_spec_witness :
    (0 ≤ (FrameWaiter.mk 0).mPendingFrames) ∧
    FrameWaiter.run { mPendingFrames := 0 }
      (List.replicate 3 WaiterOp.signal ++ List.replicate 3 WaiterOp.wait) =
      some { mPendingFrames := 0 } :=
  ⟨frameWaiter_counter_spec.1 [WaiterOp.signal, WaiterOp.wait] ⟨0⟩ ⟨0⟩ (by decide)
      (by decide),
   frameWaiter_counter_spec.2.2.2 3⟩

/-- C8: convertFormat is a pure total function: each of the twelve handled
native codes maps to its same-named normalized value, and every other input
code maps to FORMAT_UNKNOWN. -/
theorem convertFormat_total_spec :
    MinicapImpl.convertFormat PIXEL_FORMAT_NONE = Format.FORMAT_NONE ∧
    MinicapImpl.convertFormat PIXEL_FORMAT_CUSTOM = Format.FORMAT_CUSTOM ∧
    MinicapImpl.convertFormat PIXEL_FORMAT_TRANSLUCENT = Format.FORMAT_TRANSLUCENT ∧
    MinicapImpl.convertFormat PIXEL_FORMAT_TRANSPARENT = Format.FORMAT_TRANSPARENT ∧
    MinicapImpl.convertFormat PIXEL_FORMAT_OPAQUE = Format.FORMAT_OPAQUE ∧
    MinicapImpl.convertFormat PIXEL_FORMAT_RGBA_8888 = Format.FORMAT_RGBA_8888 ∧
    MinicapImpl.convertFormat PIXEL_FORMAT_RGBX_8888 = Format.FORMAT_RGBX_8888 ∧
    MinicapImpl.convertFormat PIXEL_FORMAT_RGB_888 = Format.FORMAT_RGB_888 ∧
    MinicapImpl.convertFormat PIXEL_FORMAT_RGB_565 = Format.FORMAT_RGB_565 ∧
    MinicapImpl.convertFormat PIXEL_FORMAT_BGRA_8888 = Format.FORMAT_BGRA_8888 ∧
    MinicapImpl.convertFormat PIXEL_FORMAT_RGBA_5551 = Format.FORMAT_RGBA_5551 ∧
    MinicapImpl.convertFormat PIXEL_FORMAT_RGBA_4444 = Format.FORMAT_RGBA_4444 ∧
    ∀ code : Int, code ∉ handledFormatCodes →
      MinicapImpl.convertFormat code = Format.FORMAT_UNKNOWN := by
  refine ⟨by decide, by decide, by decide, by decide, by decide, by decide, by decide,
    by decide, by decide, by decide, by decide, by decide, ?_⟩
  intro code hc
  simp only [handledFormatCodes, List.mem_cons, List.not_mem_nil, or_false,
    not_or] at hc
  obtain ⟨h1, h2, h3, h4, h5, h6, h7, h8, h9, h10, h11, h12⟩ := hc
  simp [MinicapImpl.convertFormat, h1, h2, h3, h4, h5, h6, h7, h8, h9, h10, h11, h12]

/-- Witness for convertFormat_total_spec: the unmapped code 42 falls through
to FORMAT_UNKNOWN. -/
theorem convertFormat_total_spec_witness :
    MinicapImpl.convertFormat 42 = Format.FORMAT_UNKNOWN :=
  convertFormat_total_spec.2.2.2.2.2.2.2.2.2.2.2.2 42 (by decide)

/-- C10: setRealInfo stores exactly the width and height of its argument and
setDesiredInfo exactly the width, height and orientation; both return true
and change no other session state, and arguments agreeing on the stored
fields yield identical results, so the remaining DisplayInfo fields are
discarded and never influence later operations. -/
theorem setInfo_spec (info info2 : DisplayInfo) (s : MinicapState) :
    MinicapImpl.setRealInfo info s =
      (true, { s with mRealWidth := info.width, mRealHeight := info.height }) ∧
    MinicapImpl.setDesiredInfo info s =
      (true,
       { s with
          mDesiredWidth := info.width
          mDesiredHeight := info.height
          mDesiredOrientation := info.orientation }) ∧
    (info.width = info2.width → info.height = info2.height →
      MinicapImpl.setRealInfo info s = MinicapImpl.setRealInfo info2 s) ∧
    (info.width = info2.width → info.height = info2.height →
      info.orientation = info2.orientation →
      MinicapImpl.setDesiredInfo info s = MinicapImpl.setDesiredInfo info2 s) := by
  refine ⟨rfl, rfl, ?_, ?_⟩
  · intro h1 h2
    simp [MinicapImpl.setRealInfo, h1, h2]
  · intro h1 h2 h3
    simp [MinicapImpl.setDesiredInfo, h1, h2, h3]

/-- Witness for setInfo_spec: two DisplayInfo values differing in every
non-geometry field produce the same setRealInfo result. -/
theorem setInfo_spec_witness :
    MinicapImpl.setRealInfo
        { width := 1080, height := 1920, orientation := 0, fps := 60, density := 2,
          xdpi := 400, ydpi := 400, secure := true, size := 5 }
        (minicap_create 0) =
      MinicapImpl.setRealInfo
        { width := 1080, height := 1920, orientation := 3, fps := 30, density := 3,
          xdpi := 100, ydpi := 100, secure := false, size := 7 }
        (minicap_create 0) :=
  (setInfo_spec _ _ _).2.2.1 rfl rfl

/-- C5: when lockNextBuffer reports a non-success status, consumePendingFrame
returns false without retrying and mutates nothing: the caller-supplied Frame
is left unwritten and the whole session state, the held-buffer and
pending-frame flags included, keeps its prior value. -/
theorem consumePendingFrame_error_spec (bytesPerPixel : Int → Nat) (err : Int)
    (buf : LockedBuffer) (s : MinicapState) (frame : Frame) (herr : err ≠ 0) :
    MinicapImpl.consumePendingFrame bytesPerPixel err buf s frame = (false, s, frame) := by
  simp [MinicapImpl.consumePendingFrame, herr]

/-- Witness for consumePendingFrame_error_spec at the WOULD_BLOCK status. -/
theorem consumePendingFrame_error_spec_witness :
    MinicapImpl.consumePendingFrame (fun _ => 4) (-22)
        { data := 0, format := 1, width := 540, height := 960, stride := 576 }
        (minicap_create 0)
        { data := 0, format := Format.FORMAT_NONE, width := 0, height := 0,
          stride := 0, bpp := 0, size := 0 } =
      (false, minicap_create 0,
       { data := 0, format := Format.FORMAT_NONE, width := 0, height := 0,
         stride := 0, bpp := 0, size := 0 }) :=
  consumePendingFrame_error_spec _ _ _ _ _ (by decide)

/-- C6: when lockNextBuffer succeeds, consumePendingFrame fills every field
of the caller-supplied Frame from the locked buffer, stores the buffer, sets
the held-buffer flag, clears the pending-frame flag and returns true. -/
theorem consumePendingFrame_success_spec (bytesPerPixel : Int → Nat) (err : Int)
    (buf : LockedBuffer) (s : MinicapState) (frame : Frame) (herr : err = 0) :
    MinicapImpl.consumePendingFrame bytesPerPixel err buf s frame =
      (true,
       { s with mBuffer := buf, mHaveBuffer := true, mHavePendingFrame := false },
       { data := buf.data
         format := MinicapImpl.convertFormat buf.format
         width := buf.width
         height := buf.height
         stride := buf.stride
         bpp := bytesPerPixel buf.format
         size := buf.stride * buf.height * bytesPerPixel buf.format % 2 ^ 32 }) := by
  subst herr
  simp [MinicapImpl.consumePendingFrame]

/-- Witness for consumePendingFrame_success_spec on a 540x960 RGBA_8888
buffer with stride 576. -/
theorem consumePendingFrame_success_spec_witness :
    MinicapImpl.consumePendingFrame (fun _ => 4) 0
        { data := 77, format := 1, width := 540, height := 960, stride := 576 }
        (minicap_create 0)
        { data := 0, format := Format.FORMAT_NONE, width := 0, height := 0,
          stride := 0, bpp := 0, size := 0 } =
      (true,
       { minicap_create 0 with
          mBuffer := { data := 77, format := 1, width := 540, height := 960, stride := 576 }
          mHaveBuffer := true
          mHavePendingFrame := false },
       { data := 77, format := Format.FORMAT_RGBA_8888, width := 540, height := 960,
         stride := 576, bpp := 4, size := 2211840 }) := by
  rw [consumePendingFrame_success_spec (fun _ => 4) 0
      { data := 77, format := 1, width := 540, height := 960, stride := 576 }
      (minicap_create 0)
      { data := 0, format := Format.FORMAT_NONE, width := 0, height := 0,
        stride := 0, bpp := 0, size := 0 } rfl]
  decide

/-- C3: for a successfully locked buffer with stride s, height h and a
native format whose bytes-per-pixel is b, the reported frame size is the
uint32_t product s * h * b — equal to s * h * b whenever that product fits
in 32 bits — the bpp field is derived from the native format, and whenever
the stride exceeds the width (with non-degenerate height and bpp) the
reported size differs from width * height * b. -/
theorem consumePendingFrame_size_spec (bytesPerPixel : Int → Nat)
    (buf : LockedBuffer) (s : MinicapState) (frame : Frame)
    (hfit : buf.stride * buf.height * bytesPerPixel buf.format < 2 ^ 32) :
    ((MinicapImpl.consumePendingFrame bytesPerPixel 0 buf s frame).2.2).size =
        buf.stride * buf.height * bytesPerPixel buf.format ∧
    ((MinicapImpl.consumePendingFrame bytesPerPixel 0 buf s frame).2.2).bpp =
        bytesPerPixel buf.format ∧
    (buf.width < buf.stride → 0 < buf.height → 0 < bytesPerPixel buf.format →
      ((MinicapImpl.consumePendingFrame bytesPerPixel 0 buf s frame).2.2).size ≠
        buf.width * buf.height * bytesPerPixel buf.format) := by
  have hfit2 : buf.stride * buf.height * bytesPerPixel buf.format < 4294967296 := by
    norm_num at hfit
    exact hfit
  have hsize : ((MinicapImpl.consumePendingFrame bytesPerPixel 0 buf s frame).2.2).size =
      buf.stride * buf.height * bytesPerPixel buf.format := by
    simp [MinicapImpl.consumePendingFrame, Nat.mod_eq_of_lt hfit2]
  refine ⟨hsize, by simp [MinicapImpl.consumePendingFrame], ?_⟩
  intro hw hh hb
  rw [hsize]
  have hlt : buf.width * buf.height * bytesPerPixel buf.format <
      buf.stride * buf.height * bytesPerPixel buf.format :=
    Nat.mul_lt_mul_of_lt_of_le (Nat.mul_lt_mul_of_lt_of_le hw le_rfl hh)
      le_rfl hb
  exact (Nat.ne_of_lt hlt).symm

/-- Witness for consumePendingFrame_size_spec: stride 576 exceeds width 540,
and the reported size is 576 * 960 * 4. -/
theorem consumePendingFrame_size_spec_witness :
    ((MinicapImpl.consumePendingFrame (fun _ => 4) 0
        { data := 0, format := 1, width := 540, height := 960, stride := 576 }
        (minicap_create 0)
        { data := 0, format := Format.FORMAT_NONE, width := 0, height := 0,
          stride := 0, bpp := 0, size := 0 }).2.2).size = 576 * 960 * 4 :=
  (consumePendingFrame_size_spec (fun _ => 4)
      { data := 0, format := 1, width := 540, height := 960, stride := 576 }
      (minicap_create 0)
      { data := 0, format := Format.FORMAT_NONE, width := 0, height := 0,
        stride := 0, bpp := 0, size := 0 } (by norm_num)).1

/-- C9: minicap_try_get_display_info returns false and writes no DisplayInfo
when the display-info query on the looked-up handle reports a non-success
status (which is how an invalid display id surfaces), and on success it
returns true and fills every field, the diagonal size being obtained by
applying the square root to (width/xdpi)^2 + (height/ydpi)^2. -/
theorem tryGetDisplayInfo_spec (sqrtFn : Rat → Rat) (err : Int)
    (dinfo : AndroidDisplayInfo) :
    (err ≠ 0 → minicap_try_get_display_info sqrtFn err dinfo = (false, none)) ∧
    (err = 0 → minicap_try_get_display_info sqrtFn err dinfo =
      (true,
       some
         { width := dinfo.w
           height := dinfo.h
           orientation := dinfo.orientation
           fps := dinfo.fps
           density := dinfo.density
           xdpi := dinfo.xdpi
           ydpi := dinfo.ydpi
           secure := dinfo.secure
           size := sqrtFn (((dinfo.w : Rat) / dinfo.xdpi) ^ 2 +
             ((dinfo.h : Rat) / dinfo.ydpi) ^ 2) })) := by
  constructor
  · intro h
    simp [minicap_try_get_display_info, h]
  · intro h
    subst h
    simp [minicap_try_get_display_info]

/-- Witness for tryGetDisplayInfo_spec: a NAME_NOT_FOUND status yields false
and no written DisplayInfo. -/
theorem tryGetDisplayInfo_spec_witness :
    minicap_try_get_display_info id (-2)
      { w := 0, h := 0, orientation := 0, fps := 0, density := 0, xdpi := 0,
        ydpi := 0, secure := false } = (false, none) :=
  (tryGetDisplayInfo_spec id (-2)
      { w := 0, h := 0, orientation := 0, fps := 0, density := 0, xdpi := 0,
        ydpi := 0, secure := false }).1 (by decide)

/-- C4: on a running session (non-NULL waiter) with a frame pending in the
FrameWaiter, waitForFrame unlocks the held buffer first exactly when one is
held from a prior read and clears the held-buffer flag, consumes one pending
signal, sets the pending-frame flag and returns true; an immediately
following second call without an intervening consumePendingFrame performs no
further unlock, the buffer held from before the first call having already
been unlocked by it. -/
theorem waitForFrame_spec (s : MinicapState) (w : FrameWaiter)
    (hw : s.mWaiter = some w) (hp : w.mPendingFrames ≠ 0) :
    MinicapImpl.waitForFrame s =
      some (true,
            { s with
                mHaveBuffer := false
                mHavePendingFrame := true
                mWaiter := some { mPendingFrames := w.mPendingFrames - 1 } },
            if s.mHaveBuffer then [ExtAction.unlockBuffer s.mBuffer] else []) ∧
    (w.mPendingFrames - 1 ≠ 0 →
      MinicapImpl.waitForFrame
          { s with
              mHaveBuffer := false
              mHavePendingFrame := true
              mWaiter := some { mPendingFrames := w.mPendingFrames - 1 } } =
        some (true,
              { s with
                  mHaveBuffer := false
                  mHavePendingFrame := true
                  mWaiter := some { mPendingFrames := w.mPendingFrames - 1 - 1 } },
              [])) := by
  obtain ⟨did, rwid, rht, dwid, dht, dor, bp, bc, cc, vd, mw, hb, hpf, hrd, buf⟩ := s
  simp only [MinicapState.mWaiter] at hw
  subst hw
  constructor
  · cases hb <;>
      simp [MinicapImpl.waitForFrame, FrameWaiter.waitForFrame, hp]
  · intro hp1
    simp [MinicapImpl.waitForFrame, FrameWaiter.waitForFrame, hp1]

/-- Witness for waitForFrame_spec: a running session holding a locked buffer
and one pending signal; the call returns true, unlocks that buffer and
clears the held-buffer flag. -/
theorem waitForFrame_spec_witness :
    MinicapImpl.waitForFrame
        { mDisplayId := 0, mRealWidth := 1080, mRealHeight := 1920,
          mDesiredWidth := 540, mDesiredHeight := 960, mDesiredOrientation := 1,
          mBufferProducer := some (),
          mBufferConsumer := some
            { asyncDisabled := true, defaultWidth := 540, defaultHeight := 960,
              defaultFormat := PIXEL_FORMAT_RGBA_8888 },
          mConsumer := some { maxLockedBuffers := 1 },
          mVirtualDisplay := some
            { secure := true, surfaceBound := true, projOrientation := 1,
              projLayerStackRect := (1080, 1920), projVisibleRect := (540, 960),
              layerStack := 0 },
          mWaiter := some { mPendingFrames := 1 },
          mHaveBuffer := true, mHavePendingFrame := false,
          mHaveRunningDisplay := true,
          mBuffer := { data := 77, format := 1, width := 540, height := 960,
                       stride := 576 } } =
      some (true,
            { mDisplayId := 0, mRealWidth := 1080, mRealHeight := 1920,
              mDesiredWidth := 540, mDesiredHeight := 960, mDesiredOrientation := 1,
              mBufferProducer := some (),
              mBufferConsumer := some
                { asyncDisabled := true, defaultWidth := 540, defaultHeight := 960,
                  defaultFormat := PIXEL_FORMAT_RGBA_8888 },
              mConsumer := some { maxLockedBuffers := 1 },
              mVirtualDisplay := some
                { secure := true, surfaceBound := true, projOrientation := 1,
                  projLayerStackRect := (1080, 1920), projVisibleRect := (540, 960),
                  layerStack := 0 },
              mWaiter := some { mPendingFrames := 0 },
              mHaveBuffer := false, mHavePendingFrame := true,
              mHaveRunningDisplay := true,
              mBuffer := { data := 77, format := 1, width := 540, height := 960,
                           stride := 576 } },
            [ExtAction.unlockBuffer
              { data := 77, format := 1, width := 540, height := 960,
                stride := 576 }]) := by
  have h := (waitForFrame_spec
      { mDisplayId := 0, mRealWidth := 1080, mRealHeight := 1920,
        mDesiredWidth := 540, mDesiredHeight := 960, mDesiredOrientation := 1,
        mBufferProducer := some (),
        mBufferConsumer := some
          { asyncDisabled := true, defaultWidth := 540, defaultHeight := 960,
            defaultFormat := PIXEL_FORMAT_RGBA_8888 },
        mConsumer := some { maxLockedBuffers := 1 },
        mVirtualDisplay := some
          { secure := true, surfaceBound := true, projOrientation := 1,
            projLayerStackRect := (1080, 1920), projVisibleRect := (540, 960),
            layerStack := 0 },
        mWaiter := some { mPendingFrames := 1 },
        mHaveBuffer := true, mHavePendingFrame := false,
        mHaveRunningDisplay := true,
        mBuffer := { data := 77, format := 1, width := 540, height := 960,
                     stride := 576 } }
      { mPendingFrames := 1 } rfl (by decide)).1
  simpa using h

/-- C7: release (which performs destroyVirtualDisplay) unlocks the held
buffer exactly when one is held, NULLs the producer, consumer, reader,
listener and output handles, and clears the held-buffer, pending-frame and
running flags; a second consecutive call leaves that state unchanged and
performs no buffer unlock — the only platform call it repeats is
destroyDisplay on an already NULL handle. -/
theorem release_idempotent_spec (s : MinicapState) :
    (MinicapImpl.release s).1.mBufferProducer = none ∧
    (MinicapImpl.release s).1.mBufferConsumer = none ∧
    (MinicapImpl.release s).1.mConsumer = none ∧
    (MinicapImpl.release s).1.mWaiter = none ∧
    (MinicapImpl.release s).1.mVirtualDisplay = none ∧
    (MinicapImpl.release s).1.mHaveBuffer = false ∧
    (MinicapImpl.release s).1.mHavePendingFrame = false ∧
    (MinicapImpl.release s).1.mHaveRunningDisplay = false ∧
    (MinicapImpl.release s).2 =
      ExtAction.destroyDisplay s.mVirtualDisplay ::
        (if s.mHaveBuffer then [ExtAction.unlockBuffer s.mBuffer] else []) ∧
    MinicapImpl.release (MinicapImpl.release s).1 =
      ((MinicapImpl.release s).1, [ExtAction.destroyDisplay none]) := by
  obtain ⟨did, rwid, rht, dwid, dht, dor, bp, bc, cc, vd, mw, hb, hpf, hrd, buf⟩ := s
  cases hb <;>
    simp [MinicapImpl.release, MinicapImpl.destroyVirtualDisplay]

/-- C1 (evaluation of the code at the failing input): in the successful
scenario — setRealInfo 1080x1920, setDesiredInfo 540x960 with orientation 1,
then applyConfigChanges with the compositing-session initCheck succeeding
(status 0, NO_ERROR) — the virtual display is fully created and the session
is marked running, yet applyConfigChanges returns false: the success path of
createVirtualDisplay, a bool function, ends with return 0. -/
theorem applyConfigChanges_false_on_success :
    (MinicapImpl.applyConfigChanges 0
        (MinicapImpl.setDesiredInfo
            { width := 540, height := 960, orientation := 1, fps := 60,
              density := 2, xdpi := 400, ydpi := 400, secure := true, size := 5 }
            (MinicapImpl.setRealInfo
                { width := 1080, height := 1920, orientation := 0, fps := 60,
                  density := 2, xdpi := 400, ydpi := 400, secure := true, size := 5 }
                (minicap_create 0)).2).2).1 = false ∧
    (MinicapImpl.applyConfigChanges 0
        (MinicapImpl.setDesiredInfo
            { width := 540, height := 960, orientation := 1, fps := 60,
              density := 2, xdpi := 400, ydpi := 400, secure := true, size := 5 }
            (MinicapImpl.setRealInfo
                { width := 1080, height := 1920, orientation := 0, fps := 60,
                  density := 2, xdpi := 400, ydpi := 400, secure := true, size := 5 }
                (minicap_create 0)).2).2).2.1.mHaveRunningDisplay = true := by
  constructor <;> rfl

end Minicap
